import Mathlib

/-
Verification of the RomLibraryClient API wrapper
(src/frontend/src/services/api.js).

The module is a stateless set of functions, each issuing one HTTP request
through a shared axios client and returning the transport-level result
unchanged (except the download operation, which consumes its result in a
browser-side file save).  We embed the axios client as an explicit
transport function from requests to results, so that each API function is
a pure function of the transport and its arguments.  Promise rejection of
the underlying HTTP call is modelled as the Except.error case of the
transport's result.
-/

namespace RommApi

/-- HTTP methods used by the client (axios.get / patch / delete / put). -/
inductive Method where
  | get
  | patch
  | delete
  | put

/-- A JSON-like value, for request bodies.  The source passes plain JS
objects as bodies; we model them as association lists of fields. -/
inductive Json where
  | str : String → Json
  | num : Int → Json
  | boolean : Bool → Json
  | obj : List (String × Json) → Json
  | list : List Json → Json

/-- A successful HTTP response.  The client never inspects the response
beyond passing it through (and reading response.data in the download
path), so a single opaque payload field suffices. -/
structure Response where
  data : String

/-- A transport failure: a network error or rejected HTTP result. -/
structure Failure where
  message : String

/-- One HTTP request as issued by the client: method, full URL (the source
builds URLs by template-literal interpolation, embedded here as string
concatenation in the same order), optional JSON body, and the optional
axios responseType option (the download path sets it to "blob"). -/
structure Request where
  method : Method
  url : String
  body : Option Json
  responseType : Option String

/-- The axios client, embedded as a function from a request to a result:
Except.ok on fulfilment, Except.error on rejection. -/
abbrev Transport := Request → Except Failure Response

/-- The value of the files argument of downloadRomApi, or of rom.files:
in the source this is absent (undefined), a string, or an array of file
identifier strings. -/
inductive FilesVal where
  | undef
  | str : String → FilesVal
  | arr : List String → FilesVal

/-- JavaScript truthiness of a FilesVal: undefined is falsy, a string is
falsy exactly when empty, an array is always truthy. -/
def FilesVal.truthy : FilesVal → Bool
  | FilesVal.undef => false
  | FilesVal.str s => !(s == "")
  | FilesVal.arr _ => true

/-- The JavaScript logical-or fallback `a || b`: a when a is truthy,
otherwise b.  This embeds the expression `files || rom.files` of the
source. -/
def jsOr (a b : FilesVal) : FilesVal :=
  if a.truthy then a else b

/-- String interpolation of a FilesVal inside a template literal:
undefined prints as "undefined", a string as itself, and an array by
JavaScript array-to-string coercion, the comma-join of its elements. -/
def FilesVal.interp : FilesVal → String
  | FilesVal.undef => "undefined"
  | FilesVal.str s => s
  | FilesVal.arr l => String.intercalate "," l

/-- A rom object as used by the client: integer id, platform slug, display
name, and the associated file identifiers. -/
structure Rom where
  id : Nat
  p_slug : String
  r_name : String
  files : FilesVal

/-- The request issued by fetchPlatformsApi: GET /api/platforms. -/
def platformsRequest : Request :=
  { method := Method.get, url := "/api/platforms",
    body := none, responseType := none }

/-- listPlatforms: returns the transport's result for the platform
collection request, unchanged. -/
def fetchPlatformsApi (t : Transport) : Except Failure Response :=
  t platformsRequest

/-- The single destructured options object of fetchRomsApi.  The source
reads platform (required) and cursor, size, searchTerm with destructuring
defaults "", 60, "" applied when the property is absent. -/
structure FetchRomsParams where
  platform : String
  cursor : Option String
  size : Option Nat
  searchTerm : Option String

/-- The request issued by fetchRomsApi, with destructuring defaults
applied: GET /api/platforms/(platform)/roms with query
cursor=(cursor)&size=(size)&search_term=(searchTerm). -/
def romsRequest (p : FetchRomsParams) : Request :=
  { method := Method.get,
    url := "/api/platforms/" ++ p.platform ++ "/roms?cursor=" ++
      p.cursor.getD "" ++ "&size=" ++ toString (p.size.getD 60) ++
      "&search_term=" ++ p.searchTerm.getD "",
    body := none, responseType := none }

/-- listRoms: returns the transport's result for the rom collection
request, unchanged. -/
def fetchRomsApi (t : Transport) (p : FetchRomsParams) :
    Except Failure Response :=
  t (romsRequest p)

/-- The request issued by fetchRomApi: GET
/api/platforms/(platform)/roms/(rom). -/
def fetchRomRequest (platform : String) (rom : Nat) : Request :=
  { method := Method.get,
    url := "/api/platforms/" ++ platform ++ "/roms/" ++ toString rom,
    body := none, responseType := none }

/-- getRom: returns the transport's result for the rom detail request,
unchanged. -/
def fetchRomApi (t : Transport) (platform : String) (rom : Nat) :
    Except Failure Response :=
  t (fetchRomRequest platform rom)

/-- The request issued by downloadRomApi: GET
/api/platforms/(rom.p_slug)/roms/(rom.id)/download?files=(files or
rom.files), with responseType blob.  The falsy fallback of the source,
`files || rom.files`, is jsOr. -/
def downloadRequest (rom : Rom) (files : FilesVal) : Request :=
  { method := Method.get,
    url := "/api/platforms/" ++ rom.p_slug ++ "/roms/" ++ toString rom.id ++
      "/download?files=" ++ (jsOr files rom.files).interp,
    body := none, responseType := some "blob" }

/-- One browser file-save action as triggered by the download success
handler: an anchor element whose href is an object URL over a blob built
from response.data, and whose download attribute names the saved file. -/
structure SaveAction where
  blobData : String
  download : String

/-- downloadRom: issues the download request without awaiting or
returning it, so the async function itself always resolves with undefined
(Except.ok ()) for the caller regardless of the transport outcome; the
then-handler runs only on fulfilment and triggers the file save, and a
rejection is left unhandled, producing no save and no caller-visible
failure.  The second component records the file-save actions triggered. -/
def downloadRomApi (t : Transport) (rom : Rom) (files : FilesVal) :
    Except Failure Unit × List SaveAction :=
  match t (downloadRequest rom files) with
  | Except.ok resp =>
      (Except.ok (), [{ blobData := resp.data,
                        download := rom.r_name ++ ".zip" }])
  | Except.error _ => (Except.ok (), [])

/-- The request issued by updateRomApi: PATCH
/api/platforms/(rom.p_slug)/roms/(rom.id) with body wrapping the updated
fields in the shorthand-property envelope with key updatedRom. -/
def updateRequest (rom : Rom) (updatedRom : Json) : Request :=
  { method := Method.patch,
    url := "/api/platforms/" ++ rom.p_slug ++ "/roms/" ++ toString rom.id,
    body := some (Json.obj [("updatedRom", updatedRom)]),
    responseType := none }

/-- updateRom: returns the transport's result for the partial-update
request, unchanged. -/
def updateRomApi (t : Transport) (rom : Rom) (updatedRom : Json) :
    Except Failure Response :=
  t (updateRequest rom updatedRom)

/-- The request issued by deleteRomApi: DELETE
/api/platforms/(rom.p_slug)/roms/(rom.id)?filesystem=(deleteFromFs),
the boolean interpolating as "true" or "false". -/
def deleteRequest (rom : Rom) (deleteFromFs : Bool) : Request :=
  { method := Method.delete,
    url := "/api/platforms/" ++ rom.p_slug ++ "/roms/" ++ toString rom.id ++
      "?filesystem=" ++ (if deleteFromFs then "true" else "false"),
    body := none, responseType := none }

/-- deleteRom: returns the transport's result for the deletion request,
unchanged. -/
def deleteRomApi (t : Transport) (rom : Rom) (deleteFromFs : Bool) :
    Except Failure Response :=
  t (deleteRequest rom deleteFromFs)

/-- The request issued by searchRomIGDBApi: PUT
/api/search/roms/igdb?search_term=(searchTerm)&search_by=(searchBy) with
the candidate rom wrapped as the single body field rom.  The rom payload
is whatever object the caller passes, so it is modelled as a Json value. -/
def searchRequest (searchTerm searchBy : String) (rom : Json) : Request :=
  { method := Method.put,
    url := "/api/search/roms/igdb?search_term=" ++ searchTerm ++
      "&search_by=" ++ searchBy,
    body := some (Json.obj [("rom", rom)]),
    responseType := none }

/-- searchRomMetadata: returns the transport's result for the metadata
search request, unchanged. -/
def searchRomIGDBApi (t : Transport) (searchTerm searchBy : String)
    (rom : Json) : Except Failure Response :=
  t (searchRequest searchTerm searchBy rom)

end RommApi

namespace RommApi

/-- Claim C1: for every call to listPlatforms, listRoms, getRom,
updateRom, deleteRom, or searchRomMetadata, if the underlying HTTP call
fails, the operation's returned result is that same failure, propagated
to the caller unmodified and not swallowed. -/
theorem C1_transport_failures_propagate (t : Transport) (e : Failure)
    (h : ∀ req, t req = Except.error e)
    (p : FetchRomsParams) (platform : String) (romId : Nat)
    (rom rom2 : Rom) (updated : Json) (dfs : Bool)
    (st sb : String) (romJ : Json) :
    fetchPlatformsApi t = Except.error e ∧
    fetchRomsApi t p = Except.error e ∧
    fetchRomApi t platform romId = Except.error e ∧
    updateRomApi t rom updated = Except.error e ∧
    deleteRomApi t rom2 dfs = Except.error e ∧
    searchRomIGDBApi t st sb romJ = Except.error e :=
  ⟨h _, h _, h _, h _, h _, h _⟩

/-- Witness for C1: a concrete always-failing transport makes
listPlatforms and deleteRom return exactly that failure. -/
theorem C1_transport_failures_propagate_witness :
    fetchPlatformsApi (fun _ => Except.error ⟨"network down"⟩) =
      Except.error ⟨"network down"⟩ ∧
    deleteRomApi (fun _ => Except.error ⟨"network down"⟩)
      ⟨7, "nes", "g", FilesVal.undef⟩ true =
      Except.error ⟨"network down"⟩ := by
  have h := C1_transport_failures_propagate
    (fun _ => Except.error ⟨"network down"⟩) ⟨"network down"⟩
    (fun _ => rfl) ⟨"nes", none, none, none⟩ "snes" 42
    ⟨1, "nes", "g", FilesVal.undef⟩ ⟨7, "nes", "g", FilesVal.undef⟩
    (Json.str "x") true "mario" "name" (Json.str "r")
  exact ⟨h.1, h.2.2.2.2.1⟩

/-- Claim C2: for every rom and transport outcome, downloadRom returns no
value usable by the caller (its result is always the resolved unit value,
never a failure), and a transport failure is silently dropped: the
caller-visible result is the same whether the HTTP call succeeds or
fails. -/
theorem C2_downloadRom_swallows_failures (t : Transport) (rom : Rom)
    (files : FilesVal) (e : Failure) (resp : Response) :
    (downloadRomApi t rom files).1 = Except.ok () ∧
    (downloadRomApi (fun _ => Except.error e) rom files).1 =
      (downloadRomApi (fun _ => Except.ok resp) rom files).1 := by
  constructor
  · unfold downloadRomApi
    cases t (downloadRequest rom files) <;> rfl
  · rfl

/-- Claim C3: listRoms issues a GET whose query string carries cursor,
size and searchTerm verbatim in the shape
cursor=(cursor)&size=(size)&search_term=(searchTerm), and each absent
field defaults to "", 60, "" respectively. -/
theorem C3_listRoms_query_and_defaults (t : Transport)
    (platform cursor st : String) (size : Nat) :
    fetchRomsApi t ⟨platform, some cursor, some size, some st⟩ =
      t { method := Method.get,
          url := "/api/platforms/" ++ platform ++ "/roms?cursor=" ++
            cursor ++ "&size=" ++ toString size ++ "&search_term=" ++ st,
          body := none, responseType := none } ∧
    fetchRomsApi t ⟨platform, none, some size, some st⟩ =
      fetchRomsApi t ⟨platform, some "", some size, some st⟩ ∧
    fetchRomsApi t ⟨platform, some cursor, none, some st⟩ =
      fetchRomsApi t ⟨platform, some cursor, some 60, some st⟩ ∧
    fetchRomsApi t ⟨platform, some cursor, some size, none⟩ =
      fetchRomsApi t ⟨platform, some cursor, some size, some ""⟩ ∧
    fetchRomsApi t ⟨platform, none, none, none⟩ =
      fetchRomsApi t ⟨platform, some "", some 60, some ""⟩ :=
  ⟨rfl, rfl, rfl, rfl, rfl⟩

/-- Counterexample to claim C4: the explicit files value given by the
empty string is not used; the code falls back to rom.files because the
JavaScript fallback uses truthiness, not presence. -/
theorem C4_counterexample_empty_string_files :
    (downloadRequest ⟨1, "nes", "game", FilesVal.str "backup.zip"⟩
        (FilesVal.str "")).url =
      "/api/platforms/nes/roms/1/download?files=backup.zip" ∧
    "/api/platforms/nes/roms/1/download?files=backup.zip" ≠
      "/api/platforms/nes/roms/1/download?files=" :=
  ⟨by decide, by decide⟩

/-- Claim C4 as amended: downloadRom given files=undefined uses rom.files
in the files query parameter; given a truthy files value (a non-empty
string, or any array) it uses that value instead of rom.files; an
explicit falsy files value (the empty string) also falls back to
rom.files. -/
theorem C4_files_fallback_amended (rom : Rom) (files : FilesVal) :
    (files = FilesVal.undef →
      (downloadRequest rom files).url =
        "/api/platforms/" ++ rom.p_slug ++ "/roms/" ++ toString rom.id ++
          "/download?files=" ++ rom.files.interp) ∧
    (files.truthy = true →
      (downloadRequest rom files).url =
        "/api/platforms/" ++ rom.p_slug ++ "/roms/" ++ toString rom.id ++
          "/download?files=" ++ files.interp) ∧
    (files.truthy = false →
      (downloadRequest rom files).url =
        "/api/platforms/" ++ rom.p_slug ++ "/roms/" ++ toString rom.id ++
          "/download?files=" ++ rom.files.interp) := by
  refine ⟨?_, ?_, ?_⟩
  · intro h
    subst h
    rfl
  · intro h
    simp [downloadRequest, jsOr, h]
  · intro h
    simp [downloadRequest, jsOr, h]

/-- Witness for the amended C4: with rom.files set to all.zip, an
explicit non-empty files value a.zip is used, and files=undefined falls
back to all.zip. -/
theorem C4_files_fallback_amended_witness :
    (downloadRequest ⟨2, "nes", "g", FilesVal.str "all.zip"⟩
        (FilesVal.str "a.zip")).url =
      "/api/platforms/" ++ "nes" ++ "/roms/" ++ toString 2 ++
        "/download?files=" ++ (FilesVal.str "a.zip").interp ∧
    (downloadRequest ⟨2, "nes", "g", FilesVal.str "all.zip"⟩
        FilesVal.undef).url =
      "/api/platforms/" ++ "nes" ++ "/roms/" ++ toString 2 ++
        "/download?files=" ++ (FilesVal.str "all.zip").interp := by
  have h1 := C4_files_fallback_amended
    ⟨2, "nes", "g", FilesVal.str "all.zip"⟩ (FilesVal.str "a.zip")
  have h2 := C4_files_fallback_amended
    ⟨2, "nes", "g", FilesVal.str "all.zip"⟩ FilesVal.undef
  exact ⟨h1.2.1 (by decide), h2.1 rfl⟩

/-- Claim C5: updateRom sends a PATCH to
/api/platforms/(rom.p_slug)/roms/(rom.id) whose body wraps the updated
fields in the updatedRom envelope; in particular updating r_name to X
sends the envelope around that single field. -/
theorem C5_updateRom_patch_envelope (t : Transport) (rom : Rom)
    (updatedFields : Json) :
    updateRomApi t rom updatedFields = t (updateRequest rom updatedFields) ∧
    (updateRequest rom updatedFields).method = Method.patch ∧
    (updateRequest rom updatedFields).url =
      "/api/platforms/" ++ rom.p_slug ++ "/roms/" ++ toString rom.id ∧
    (updateRequest rom updatedFields).body =
      some (Json.obj [("updatedRom", updatedFields)]) ∧
    (updateRequest rom (Json.obj [("r_name", Json.str "X")])).body =
      some (Json.obj [("updatedRom",
        Json.obj [("r_name", Json.str "X")])]) :=
  ⟨rfl, rfl, rfl, rfl, rfl⟩

/-- Claim C6: deleteRom issues a DELETE to
/api/platforms/(p_slug)/roms/(id)?filesystem=(flag); in particular
deleting rom 7 of platform nes with the filesystem flag set requests
/api/platforms/nes/roms/7?filesystem=true. -/
theorem C6_deleteRom_url (t : Transport) (rom : Rom) (dfs : Bool) :
    deleteRomApi t rom dfs = t (deleteRequest rom dfs) ∧
    (deleteRequest rom dfs).method = Method.delete ∧
    (deleteRequest rom dfs).url =
      "/api/platforms/" ++ rom.p_slug ++ "/roms/" ++ toString rom.id ++
        "?filesystem=" ++ (if dfs then "true" else "false") ∧
    (deleteRequest ⟨7, "nes", "g", FilesVal.undef⟩ true).url =
      "/api/platforms/nes/roms/7?filesystem=true" :=
  ⟨rfl, rfl, rfl, by decide⟩

/-- Claim C7: getRom issues a GET to exactly
/api/platforms/(platform)/roms/(id) with no query parameters; in
particular getRom of snes and 42 requests exactly
/api/platforms/snes/roms/42, a URL containing no question mark. -/
theorem C7_getRom_url (t : Transport) (platform : String) (romId : Nat) :
    fetchRomApi t platform romId = t (fetchRomRequest platform romId) ∧
    (fetchRomRequest platform romId).method = Method.get ∧
    (fetchRomRequest platform romId).body = none ∧
    (fetchRomRequest platform romId).url =
      "/api/platforms/" ++ platform ++ "/roms/" ++ toString romId ∧
    (fetchRomRequest "snes" 42).url = "/api/platforms/snes/roms/42" ∧
    Char.ofNat 63 ∉ (fetchRomRequest "snes" 42).url.data :=
  ⟨rfl, rfl, rfl, rfl, by decide, by decide⟩

/-- Claim C8: searchRomMetadata issues a PUT to /api/search/roms/igdb
with query parameters search_term and search_by, the candidate rom
wrapped as the body field rom, and returns the transport's response
unchanged. -/
theorem C8_searchRomMetadata_request (t : Transport)
    (searchTerm searchBy : String) (rom : Json) :
    searchRomIGDBApi t searchTerm searchBy rom =
      t (searchRequest searchTerm searchBy rom) ∧
    (searchRequest searchTerm searchBy rom).method = Method.put ∧
    (searchRequest searchTerm searchBy rom).url =
      "/api/search/roms/igdb?search_term=" ++ searchTerm ++
        "&search_by=" ++ searchBy ∧
    (searchRequest searchTerm searchBy rom).body =
      some (Json.obj [("rom", rom)]) :=
  ⟨rfl, rfl, rfl, rfl⟩

/-- Claim C9: when the HTTP call made by downloadRom succeeds, the
operation triggers exactly one browser file-save action, named
(rom.r_name).zip, whose saved content is built from the response
payload. -/
theorem C9_downloadRom_save_action (t : Transport) (rom : Rom)
    (files : FilesVal) (resp : Response)
    (h : t (downloadRequest rom files) = Except.ok resp) :
    (downloadRomApi t rom files).2 =
      [{ blobData := resp.data, download := rom.r_name ++ ".zip" }] := by
  unfold downloadRomApi
  rw [h]

/-- Witness for C9: a concrete succeeding transport makes downloadRom
trigger exactly one save of the payload under mario.zip. -/
theorem C9_downloadRom_save_action_witness :
    (downloadRomApi (fun _ => Except.ok ⟨"BLOBBYTES"⟩)
        ⟨3, "gba", "mario", FilesVal.undef⟩ FilesVal.undef).2 =
      [{ blobData := "BLOBBYTES", download := "mario" ++ ".zip" }] :=
  C9_downloadRom_save_action _ _ _ _ rfl

/-- Claim C10: when the files argument, or the fallback rom.files, is a
list of file identifiers, the files query parameter of the download URL
is the comma-joined string of its elements. -/
theorem C10_array_files_comma_joined (rom : Rom) (l : List String) :
    (downloadRequest rom (FilesVal.arr l)).url =
      "/api/platforms/" ++ rom.p_slug ++ "/roms/" ++ toString rom.id ++
        "/download?files=" ++ String.intercalate "," l ∧
    (downloadRequest ⟨5, "gb", "g", FilesVal.undef⟩
        (FilesVal.arr ["a", "b"])).url =
      "/api/platforms/gb/roms/5/download?files=a,b" ∧
    (downloadRequest ⟨5, "gb", "g", FilesVal.arr ["c", "d"]⟩
        FilesVal.undef).url =
      "/api/platforms/gb/roms/5/download?files=c,d" :=
  ⟨rfl, by decide, by decide⟩

end RommApi
